import Mathlib

/-!
Verification development for the `site-ai-proxy` upload relay
(`src/index.js`): a single Express endpoint `POST /api/proxy-upload` that
validates uploaded files, encodes each accepted file into a base64 write
operation, resolves a commit target (Hugging Face space vs repository)
from the truthiness of `spaceId`, opportunistically provisions the
repository, dispatches one batched commit, and normalizes the remote
response back to the caller.

The handler is embedded shallowly: raw bytes are `List Nat` (each < 256),
multer file objects become `UploadedFile`, the results of the two outbound
`fetch` calls are passed in as oracle parameters
(`Except String HttpResponse`, with `.error` modelling a transport-level
exception), and the handler returns the JSON response sent to the caller
together with the ordered list of outbound HTTP requests it issued.
-/

namespace SiteAiProxy

/-! ## Base64 codec (Node `Buffer.prototype.toString('base64')`) -/

/-- The RFC 4648 base64 alphabet used by Node's `Buffer.toString('base64')`
(line 66 of `src/index.js`). -/
def base64Chars : List Char :=
  ['A', 'B', 'C', 'D', 'E', 'F', 'G', 'H', 'I', 'J', 'K', 'L', 'M',
   'N', 'O', 'P', 'Q', 'R', 'S', 'T', 'U', 'V', 'W', 'X', 'Y', 'Z',
   'a', 'b', 'c', 'd', 'e', 'f', 'g', 'h', 'i', 'j', 'k', 'l', 'm',
   'n', 'o', 'p', 'q', 'r', 's', 't', 'u', 'v', 'w', 'x', 'y', 'z',
   '0', '1', '2', '3', '4', '5', '6', '7', '8', '9', '+', '/']

/-- Character for a 6-bit group. -/
def b64Char (n : Nat) : Char := base64Chars.getD n 'A'

/-- Index of a base64 character in the alphabet, `none` for a character
outside the alphabet (such as the padding character). -/
def b64Value (c : Char) : Option Nat := base64Chars.findIdx? (fun d => d == c)

/-- Base64 encoding of a byte sequence, chunked by 3 bytes into 4
characters, with `=` padding on a final 1- or 2-byte chunk. -/
def base64EncodeChars : List Nat → List Char
  | [] => []
  | [b1] => [b64Char (b1 / 4), b64Char (b1 % 4 * 16), '=', '=']
  | [b1, b2] =>
      [b64Char (b1 / 4), b64Char (b1 % 4 * 16 + b2 / 16), b64Char (b2 % 16 * 4), '=']
  | b1 :: b2 :: b3 :: rest =>
      b64Char (b1 / 4) :: b64Char (b1 % 4 * 16 + b2 / 16) ::
        b64Char (b2 % 16 * 4 + b3 / 64) :: b64Char (b3 % 64) :: base64EncodeChars rest

/-- `file.buffer.toString('base64')` as a string-producing function. -/
def base64Encode (bs : List Nat) : String := String.mk (base64EncodeChars bs)

/-- Decode a final 2-character chunk (`xx==`) into one byte. -/
def b64Chunk1 (c1 c2 : Char) : Option (List Nat) :=
  match b64Value c1, b64Value c2 with
  | some n1, some n2 => some [n1 * 4 + n2 / 16]
  | _, _ => none

/-- Decode a final 3-character chunk (`xxx=`) into two bytes. -/
def b64Chunk2 (c1 c2 c3 : Char) : Option (List Nat) :=
  match b64Value c1, b64Value c2, b64Value c3 with
  | some n1, some n2, some n3 => some [n1 * 4 + n2 / 16, n2 % 16 * 16 + n3 / 4]
  | _, _, _ => none

/-- Decode a full 4-character chunk into three bytes. -/
def b64Chunk3 (c1 c2 c3 c4 : Char) : Option (List Nat) :=
  match b64Value c1, b64Value c2, b64Value c3, b64Value c4 with
  | some n1, some n2, some n3, some n4 =>
      some [n1 * 4 + n2 / 16, n2 % 16 * 16 + n3 / 4, n3 % 4 * 64 + n4]
  | _, _, _, _ => none

/-- Base64 decoding: the inverse of `base64EncodeChars`; `none` on
malformed input. -/
def base64DecodeChars : List Char → Option (List Nat)
  | [] => some []
  | [c1, c2, c3, c4] =>
      if c3 = '=' then b64Chunk1 c1 c2
      else if c4 = '=' then b64Chunk2 c1 c2 c3
      else b64Chunk3 c1 c2 c3 c4
  | c1 :: c2 :: c3 :: c4 :: c5 :: rest =>
      match b64Chunk3 c1 c2 c3 c4, base64DecodeChars (c5 :: rest) with
      | some chunk, some tail => some (chunk ++ tail)
      | _, _ => none
  | _ => none

/-- Base64 decoding of a string. -/
def base64Decode (s : String) : Option (List Nat) := base64DecodeChars s.toList

theorem b64Value_b64Char : ∀ n, n < 64 → b64Value (b64Char n) = some n := by decide

theorem b64Char_ne_pad : ∀ n, n < 64 → b64Char n ≠ '=' := by decide

theorem b64Chunk1_encode (b1 : Nat) (h1 : b1 < 256) :
    b64Chunk1 (b64Char (b1 / 4)) (b64Char (b1 % 4 * 16)) = some [b1] := by
  rw [b64Chunk1, b64Value_b64Char (b1 / 4) (by omega), b64Value_b64Char (b1 % 4 * 16) (by omega)]
  simp only [Option.some.injEq, List.cons.injEq, and_true]
  omega

theorem b64Chunk2_encode (b1 b2 : Nat) (h1 : b1 < 256) (h2 : b2 < 256) :
    b64Chunk2 (b64Char (b1 / 4)) (b64Char (b1 % 4 * 16 + b2 / 16)) (b64Char (b2 % 16 * 4)) =
      some [b1, b2] := by
  rw [b64Chunk2, b64Value_b64Char (b1 / 4) (by omega),
    b64Value_b64Char (b1 % 4 * 16 + b2 / 16) (by omega), b64Value_b64Char (b2 % 16 * 4) (by omega)]
  simp only [Option.some.injEq, List.cons.injEq, and_true]
  constructor
  · omega
  · omega

theorem b64Chunk3_encode (b1 b2 b3 : Nat) (h1 : b1 < 256) (h2 : b2 < 256) (h3 : b3 < 256) :
    b64Chunk3 (b64Char (b1 / 4)) (b64Char (b1 % 4 * 16 + b2 / 16))
      (b64Char (b2 % 16 * 4 + b3 / 64)) (b64Char (b3 % 64)) = some [b1, b2, b3] := by
  rw [b64Chunk3, b64Value_b64Char (b1 / 4) (by omega),
    b64Value_b64Char (b1 % 4 * 16 + b2 / 16) (by omega),
    b64Value_b64Char (b2 % 16 * 4 + b3 / 64) (by omega), b64Value_b64Char (b3 % 64) (by omega)]
  simp only [Option.some.injEq, List.cons.injEq, and_true]
  refine ⟨by omega, by omega, by omega⟩

theorem base64EncodeChars_cons_ne_nil (a : Nat) (l : List Nat) :
    base64EncodeChars (a :: l) ≠ [] := by
  match l with
  | [] => simp [base64EncodeChars]
  | [b] => simp [base64EncodeChars]
  | b :: c :: l2 => simp [base64EncodeChars]

theorem base64DecodeChars_encodeChars :
    ∀ bs : List Nat, (∀ b ∈ bs, b < 256) →
      base64DecodeChars (base64EncodeChars bs) = some bs
  | [], _ => rfl
  | [b1], h => by
      have h1 : b1 < 256 := h b1 (by simp)
      rw [base64EncodeChars]
      rw [show base64DecodeChars
            [b64Char (b1 / 4), b64Char (b1 % 4 * 16), '=', '='] =
          b64Chunk1 (b64Char (b1 / 4)) (b64Char (b1 % 4 * 16)) from by
        rw [base64DecodeChars]; simp]
      exact b64Chunk1_encode b1 h1
  | [b1, b2], h => by
      have h1 : b1 < 256 := h b1 (by simp)
      have h2 : b2 < 256 := h b2 (by simp)
      rw [base64EncodeChars]
      rw [show base64DecodeChars
            [b64Char (b1 / 4), b64Char (b1 % 4 * 16 + b2 / 16), b64Char (b2 % 16 * 4), '='] =
          b64Chunk2 (b64Char (b1 / 4)) (b64Char (b1 % 4 * 16 + b2 / 16))
            (b64Char (b2 % 16 * 4)) from by
        rw [base64DecodeChars]
        rw [if_neg (b64Char_ne_pad (b2 % 16 * 4) (by omega)), if_pos rfl]]
      exact b64Chunk2_encode b1 b2 h1 h2
  | b1 :: b2 :: b3 :: rest, h => by
      have h1 : b1 < 256 := h b1 (by simp)
      have h2 : b2 < 256 := h b2 (by simp)
      have h3 : b3 < 256 := h b3 (by simp)
      have hrest : ∀ b ∈ rest, b < 256 := fun b hb => h b (by simp [hb])
      have ih := base64DecodeChars_encodeChars rest hrest
      rw [base64EncodeChars]
      match rest with
      | [] =>
          rw [show base64EncodeChars [] = [] from rfl]
          rw [show base64DecodeChars
                [b64Char (b1 / 4), b64Char (b1 % 4 * 16 + b2 / 16),
                 b64Char (b2 % 16 * 4 + b3 / 64), b64Char (b3 % 64)] =
              b64Chunk3 (b64Char (b1 / 4)) (b64Char (b1 % 4 * 16 + b2 / 16))
                (b64Char (b2 % 16 * 4 + b3 / 64)) (b64Char (b3 % 64)) from by
            rw [base64DecodeChars]
            rw [if_neg (b64Char_ne_pad (b2 % 16 * 4 + b3 / 64) (by omega)),
              if_neg (b64Char_ne_pad (b3 % 64) (by omega))]]
          exact b64Chunk3_encode b1 b2 b3 h1 h2 h3
      | r :: rs =>
          cases hE : base64EncodeChars (r :: rs) with
          | nil => exact absurd hE (base64EncodeChars_cons_ne_nil r rs)
          | cons c5 cs =>
              have hstep : base64DecodeChars
                  (b64Char (b1 / 4) :: b64Char (b1 % 4 * 16 + b2 / 16) ::
                    b64Char (b2 % 16 * 4 + b3 / 64) :: b64Char (b3 % 64) :: c5 :: cs) =
                  match b64Chunk3 (b64Char (b1 / 4)) (b64Char (b1 % 4 * 16 + b2 / 16))
                      (b64Char (b2 % 16 * 4 + b3 / 64)) (b64Char (b3 % 64)),
                    base64DecodeChars (c5 :: cs) with
                  | some chunk, some tail => some (chunk ++ tail)
                  | _, _ => none := rfl
              rw [hstep, b64Chunk3_encode b1 b2 b3 h1 h2 h3, ← hE, ih]
              rfl

/-! ## Data model of the handler (`src/index.js`, lines 18-273) -/

/-- A multer file object as read by the handler: `originalname` may be
absent (`none`), `buffer` holds the raw bytes, `size` is the byte count
field reported by multer. -/
structure UploadedFile where
  originalname : Option String
  buffer : List Nat
  size : Nat
deriving DecidableEq

/-- One entry of the handler's `results` array: the rejection entries
(lines 47-51, 57-61, 91-95) carry `file`, `success`, `error`; the success
entry (lines 78-85) carries `file`, `success`, `method`, `type`, `size`,
`contentLength`. Absent keys are `none`. -/
structure FileOutcome where
  file : Option String
  success : Bool
  error : Option String := none
  method : Option String := none
  type : Option String := none
  size : Option Nat := none
  contentLength : Option Nat := none
deriving DecidableEq

/-- An operation object built for an accepted file (lines 69-74). -/
structure WriteOperation where
  operation : String
  path : String
  content : String
  encoding : String
deriving DecidableEq

/-- One element of the `files` array of the space-commit payload
(lines 119-123). -/
structure SpaceFile where
  path : String
  content : String
  encoding : String
deriving DecidableEq

/-- The JSON body of one of the three outbound requests: repository
creation (lines 150-153), repository commit (lines 169-173), space commit
(lines 125-128). -/
inductive Payload where
  | createRepo (name : String) (isPrivate : Bool)
  | repoCommit (operations : List WriteOperation) (commit_title : String)
      (commit_message : String)
  | spaceCommit (files : List SpaceFile) (summary : String)
deriving DecidableEq

/-- An outbound `fetch` POST issued by the handler (all three carry a
bearer `Authorization` header and a JSON body). -/
structure OutboundCall where
  url : String
  authorization : String
  body : Payload
deriving DecidableEq

/-- Status and body text of a remote response as observed by the handler
(`response.status` and `await response.text()`). -/
structure HttpResponse where
  status : Nat
  body : String
deriving DecidableEq

/-- `response.ok`: HTTP status in the success range 200-299. -/
def HttpResponse.ok (r : HttpResponse) : Bool := 200 ≤ r.status && r.status < 300

/-- The request fields the handler reads: the text fields of `req.body`
(`none` = absent) and the multer file array `req.files` (`none` = absent). -/
structure Request where
  token : Option String
  username : Option String
  repo : Option String
  spaceId : Option String
  files : Option (List UploadedFile)
deriving DecidableEq

/-- JS truthiness of an optional string field: absent and empty string are
falsy, every other string is truthy. -/
def strTruthy : Option String → Bool
  | none => false
  | some s => !(s == "")

/-- The guard on line 32:
`!token || !username || !repo || !files || files.length === 0`. -/
def missingParams (req : Request) : Bool :=
  !strTruthy req.token || !strTruthy req.username || !strTruthy req.repo ||
    req.files.isNone || (req.files.getD []).length == 0

/-- The code points stripped by ECMA-262 `String.prototype.trim`: the
WhiteSpace set (TAB, VT, FF, space, NBSP, ZWNBSP/BOM, and the Unicode
Space_Separator characters U+1680, U+2000..U+200A, U+202F, U+205F,
U+3000) together with the LineTerminator set (LF, CR, LS U+2028,
PS U+2029). -/
def jsWhitespace (c : Char) : Bool :=
  c.toNat == 0x9 || c.toNat == 0xA || c.toNat == 0xB || c.toNat == 0xC ||
    c.toNat == 0xD || c.toNat == 0x20 || c.toNat == 0xA0 || c.toNat == 0x1680 ||
    (0x2000 ≤ c.toNat && c.toNat ≤ 0x200A) || c.toNat == 0x2028 ||
    c.toNat == 0x2029 || c.toNat == 0x202F || c.toNat == 0x205F ||
    c.toNat == 0x3000 || c.toNat == 0xFEFF

/-- `String.prototype.trim`: strip the ECMA-262 whitespace and line
terminator characters from both ends (executable, unlike `String.trim`). -/
def jsTrim (s : String) : String :=
  String.mk (((s.toList.dropWhile jsWhitespace).reverse.dropWhile
    jsWhitespace).reverse)

/-- `file.originalname || 'arquivo-sem-nome'` (line 58). -/
def nameOrFallback : Option String → String
  | none => "arquivo-sem-nome"
  | some s => if s == "" then "arquivo-sem-nome" else s

/-- The body of the per-file loop (lines 41-97): size check, name check,
base64 encoding; returns the `results` entry for the file and the
operation pushed onto `operations`, when any. -/
def processFile (f : UploadedFile) : FileOutcome × Option WriteOperation :=
  if f.size > 100 * 1024 * 1024 then
    ({ file := f.originalname, success := false,
       error := some "Arquivo muito grande (>100MB)" }, none)
  else if !strTruthy f.originalname || jsTrim (f.originalname.getD "") == "" then
    ({ file := some (nameOrFallback f.originalname), success := false,
       error := some "Nome de arquivo inválido" }, none)
  else
    let content := base64Encode f.buffer
    ({ file := f.originalname, success := true, method := some "commit",
       type := some "base64", size := some f.size,
       contentLength := some content.length },
     some { operation := "addOrUpdate", path := jsTrim (f.originalname.getD ""),
            content := content, encoding := "base64" })

/-- The `results` array accumulated by the loop, in input order. -/
def resultsOf (files : List UploadedFile) : List FileOutcome :=
  files.map fun f => (processFile f).1

/-- The `operations` array accumulated by the loop, in input order. -/
def operationsOf (files : List UploadedFile) : List WriteOperation :=
  files.filterMap fun f => (processFile f).2

/-- The `target` field of the responses: `spaceId ? 'space' : 'repository'`
(lines 242, 258, 269). -/
def targetOf (req : Request) : String :=
  if strTruthy req.spaceId then "space" else "repository"

/-- The commit URL resolved on lines 116 and 168. -/
def commitUrlOf (req : Request) : String :=
  if strTruthy req.spaceId then
    "https://huggingface.co/api/spaces/" ++ req.spaceId.getD "" ++ "/commit/main"
  else
    "https://huggingface.co/api/repos/" ++ req.username.getD "" ++ "/" ++
      req.repo.getD "" ++ "/commit/main"

/-- The summary / commit title string (lines 127 and 171). -/
def uploadSummary (n : Nat) : String :=
  "Upload de " ++ toString n ++ " arquivo(s) via Visual Editor"

/-- The generated `commit_message` (line 172). -/
def commitMessageOf (ops : List WriteOperation) : String :=
  "Adicionados/atualizados os seguintes arquivos:\n" ++
    String.intercalate "\n" (ops.map fun op => "- " ++ op.path)

/-- The console message for the provisioning outcome (lines 156-166,
log-prefix glyphs omitted): 200 is "created", 409 is "already exists",
any other status or a transport error is a warning; in every case the
handler merely logs and continues. -/
def provisioningLog : Except String HttpResponse → String
  | .ok r =>
      if r.status == 200 then "Repositório criado com sucesso"
      else if r.status == 409 then "Repositório já existe"
      else "Erro ao criar repositório (" ++ toString r.status ++ "): " ++ r.body
  | .error msg => "Erro na criação do repositório: " ++ msg

/-- The JSON body the handler sends to its caller, one constructor per
response site in the source: line 33 (`missingParams`), lines 100-104
(`noValidFiles`), lines 236-245 (`commitSuccess`; the `parsedResponse`
field, a tolerated re-parse of the raw body, is not modelled), lines
253-261 (`commitFailure`), lines 266-271 (`internalError`). -/
inductive ResponseBody where
  | missingParams (error : String)
  | noValidFiles (success : Bool) (message : String) (results : List FileOutcome)
  | commitSuccess (success : Bool) (message : String) (results : List FileOutcome)
      (response : String) (target : String) (commitUrl : String) (operationsCount : Nat)
  | commitFailure (success : Bool) (message : String) (status : Nat)
      (results : List FileOutcome) (target : String) (commitUrl : String)
      (operationsCount : Nat)
  | internalError (success : Bool) (message : String) (target : String)
deriving DecidableEq

/-- The `target` field of a response body, when it has one. -/
def ResponseBody.target? : ResponseBody → Option String
  | .commitSuccess _ _ _ _ t _ _ => some t
  | .commitFailure _ _ _ _ t _ _ => some t
  | .internalError _ _ t => some t
  | _ => none

/-- HTTP status and JSON body sent back to the original caller
(`res.json` with no explicit status defaults to 200). -/
structure ServerResponse where
  status : Nat
  body : ResponseBody
deriving DecidableEq

/-- The commit `fetch` (lines 209-217) and the response normalization
(lines 219-262): the commit call is appended to the outbound-call list,
and the caller response is built from the remote status and body text.
A transport-level exception from the fetch is caught by the outer
`catch` (lines 264-272). -/
def dispatchCommit (token target commitUrl : String) (requestBody : Payload)
    (results : List FileOutcome) (totalFiles opCount : Nat)
    (priorCalls : List OutboundCall) (commit : Except String HttpResponse) :
    ServerResponse × List OutboundCall :=
  let calls := priorCalls ++ [⟨commitUrl, "Bearer " ++ token, requestBody⟩]
  match commit with
  | .error msg =>
      (⟨500, .internalError false ("Erro interno: " ++ msg) target⟩, calls)
  | .ok resp =>
      if resp.ok then
        let successCount := (results.filter fun r => r.success).length
        (⟨200, .commitSuccess true
            (toString successCount ++ "/" ++ toString totalFiles ++
              " arquivos enviados com sucesso")
            results resp.body target commitUrl opCount⟩, calls)
      else
        (⟨resp.status, .commitFailure false
            ("Erro no commit (" ++ toString resp.status ++ "): " ++ resp.body)
            resp.status results target commitUrl opCount⟩, calls)

/-- The `/api/proxy-upload` handler (lines 18-273). The results of the two
network calls are supplied as oracles: `provisioning` for the
`repos/create` fetch (consumed only by logging — its try/catch swallows
every outcome) and `commit` for the commit fetch, `Except.error` modelling
a transport-level exception. Returns the response sent to the caller and
the ordered list of outbound requests issued. -/
def proxyUpload (req : Request) (provisioning : Except String HttpResponse)
    (commit : Except String HttpResponse) : ServerResponse × List OutboundCall :=
  if missingParams req then
    (⟨400, .missingParams "token, username, repo e files são obrigatórios"⟩, [])
  else
    let files := req.files.getD []
    let results := resultsOf files
    let operations := operationsOf files
    if operations.length == 0 then
      (⟨400, .noValidFiles false "Nenhum arquivo válido para upload" results⟩, [])
    else
      let token := req.token.getD ""
      if strTruthy req.spaceId then
        let requestBody := Payload.spaceCommit
          (operations.map fun op => ⟨op.path, op.content, "base64"⟩)
          (uploadSummary operations.length)
        dispatchCommit token (targetOf req) (commitUrlOf req) requestBody
          results files.length operations.length [] commit
      else
        let _log := provisioningLog provisioning
        let createCall : OutboundCall :=
          ⟨"https://huggingface.co/api/repos/create", "Bearer " ++ token,
            .createRepo (req.repo.getD "") false⟩
        let requestBody := Payload.repoCommit operations
          (uploadSummary operations.length) (commitMessageOf operations)
        dispatchCommit token (targetOf req) (commitUrlOf req) requestBody
          results files.length operations.length [createCall] commit

/-! ## Helper lemmas about the per-file loop -/

theorem processFile_oversize (f : UploadedFile) (h : f.size > 104857600) :
    processFile f =
      (⟨f.originalname, false, some "Arquivo muito grande (>100MB)", none, none, none, none⟩,
       none) := by
  unfold processFile
  rw [if_pos (by omega)]

theorem processFile_invalidName (f : UploadedFile) (h : f.size ≤ 104857600)
    (hn : strTruthy f.originalname = false ∨ jsTrim (f.originalname.getD "") = "") :
    processFile f =
      (⟨some (nameOrFallback f.originalname), false, some "Nome de arquivo inválido",
        none, none, none, none⟩, none) := by
  unfold processFile
  rw [if_neg (by omega), if_pos]
  rcases hn with hn | hn
  · simp [hn]
  · simp [hn]

theorem processFile_accepted (f : UploadedFile) (h : f.size ≤ 104857600)
    (h1 : strTruthy f.originalname = true) (h2 : jsTrim (f.originalname.getD "") ≠ "") :
    processFile f =
      (⟨f.originalname, true, none, some "commit", some "base64", some f.size,
        some (base64Encode f.buffer).length⟩,
       some ⟨"addOrUpdate", jsTrim (f.originalname.getD ""), base64Encode f.buffer,
         "base64"⟩) := by
  unfold processFile
  rw [if_neg (by omega), if_neg (by simp [h1, h2])]

theorem processFile_le_not_oversize (e : UploadedFile) (he : e.size ≤ 104857600) :
    (processFile e).1.error ≠ some "Arquivo muito grande (>100MB)" := by
  unfold processFile
  rw [if_neg (by omega)]
  split
  · intro hcontra
    simp only [Option.some.injEq] at hcontra
    exact absurd hcontra (by decide)
  · simp

theorem processFile_isSome_eq_success (f : UploadedFile) :
    (processFile f).2.isSome = (processFile f).1.success := by
  unfold processFile
  split
  · rfl
  split <;> rfl

theorem operationsOf_append (l1 l2 : List UploadedFile) :
    operationsOf (l1 ++ l2) = operationsOf l1 ++ operationsOf l2 := by
  simp [operationsOf, List.filterMap_append]

theorem operationsOf_length (files : List UploadedFile) :
    (operationsOf files).length =
      ((resultsOf files).filter fun r => r.success).length := by
  induction files with
  | nil => rfl
  | cons f fs ih =>
      have hfs := processFile_isSome_eq_success f
      cases h2 : (processFile f).2 with
      | none =>
          have hsucc : (processFile f).1.success = false := by
            rw [← hfs, h2]; rfl
          simp only [operationsOf, resultsOf, List.filterMap_cons, List.map_cons,
            List.filter_cons, h2, hsucc] at ih ⊢
          simpa using ih
      | some op =>
          have hsucc : (processFile f).1.success = true := by
            rw [← hfs, h2]; rfl
          simp only [operationsOf, resultsOf, List.filterMap_cons, List.map_cons,
            List.filter_cons, h2, hsucc] at ih ⊢
          simpa using ih

/-! ## Helper lemmas about the handler's control flow -/

theorem missingParams_of_absent (req : Request)
    (h : req.token = none ∨ req.username = none ∨ req.repo = none ∨
      req.files = none ∨ req.files = some []) : missingParams req = true := by
  unfold missingParams
  rcases h with h | h | h | h | h <;> simp [h, strTruthy]

theorem filesNonempty_of_params (req : Request) (hmp : missingParams req = false) :
    req.files.getD [] ≠ [] := by
  intro hnil
  rw [missingParams] at hmp
  simp [hnil] at hmp

theorem dispatchCommit_snd (token target commitUrl : String) (requestBody : Payload)
    (results : List FileOutcome) (totalFiles opCount : Nat)
    (priorCalls : List OutboundCall) (commit : Except String HttpResponse) :
    (dispatchCommit token target commitUrl requestBody results totalFiles opCount
        priorCalls commit).2 =
      priorCalls ++ [⟨commitUrl, "Bearer " ++ token, requestBody⟩] := by
  unfold dispatchCommit
  cases commit with
  | error msg => rfl
  | ok resp =>
      dsimp only
      split <;> rfl

theorem dispatchCommit_fst_ok_true (token target commitUrl : String)
    (requestBody : Payload) (results : List FileOutcome) (totalFiles opCount : Nat)
    (priorCalls : List OutboundCall) (resp : HttpResponse) (h : resp.ok = true) :
    (dispatchCommit token target commitUrl requestBody results totalFiles opCount
        priorCalls (.ok resp)).1 =
      ⟨200, .commitSuccess true
        (toString ((results.filter fun r => r.success).length) ++ "/" ++
          toString totalFiles ++ " arquivos enviados com sucesso")
        results resp.body target commitUrl opCount⟩ := by
  simp [dispatchCommit, h]

theorem dispatchCommit_fst_ok_false (token target commitUrl : String)
    (requestBody : Payload) (results : List FileOutcome) (totalFiles opCount : Nat)
    (priorCalls : List OutboundCall) (resp : HttpResponse) (h : resp.ok = false) :
    (dispatchCommit token target commitUrl requestBody results totalFiles opCount
        priorCalls (.ok resp)).1 =
      ⟨resp.status, .commitFailure false
        ("Erro no commit (" ++ toString resp.status ++ "): " ++ resp.body)
        resp.status results target commitUrl opCount⟩ := by
  simp [dispatchCommit, h]

theorem dispatchCommit_fst_error (token target commitUrl : String)
    (requestBody : Payload) (results : List FileOutcome) (totalFiles opCount : Nat)
    (priorCalls : List OutboundCall) (msg : String) :
    (dispatchCommit token target commitUrl requestBody results totalFiles opCount
        priorCalls (.error msg)).1 =
      ⟨500, .internalError false ("Erro interno: " ++ msg) target⟩ := rfl

theorem proxyUpload_space_eq (req : Request) (prov commit : Except String HttpResponse)
    (hmp : missingParams req = false) (hs : strTruthy req.spaceId = true)
    (hops : operationsOf (req.files.getD []) ≠ []) :
    proxyUpload req prov commit =
      dispatchCommit (req.token.getD "") (targetOf req) (commitUrlOf req)
        (Payload.spaceCommit
          ((operationsOf (req.files.getD [])).map fun op => ⟨op.path, op.content, "base64"⟩)
          (uploadSummary (operationsOf (req.files.getD [])).length))
        (resultsOf (req.files.getD [])) (req.files.getD []).length
        (operationsOf (req.files.getD [])).length [] commit := by
  have hlen : ((operationsOf (req.files.getD [])).length == 0) = false := by
    simp [List.length_eq_zero, hops]
  simp [proxyUpload, hmp, hlen, hs]

theorem proxyUpload_repo_eq (req : Request) (prov commit : Except String HttpResponse)
    (hmp : missingParams req = false) (hs : strTruthy req.spaceId = false)
    (hops : operationsOf (req.files.getD []) ≠ []) :
    proxyUpload req prov commit =
      dispatchCommit (req.token.getD "") (targetOf req) (commitUrlOf req)
        (Payload.repoCommit (operationsOf (req.files.getD []))
          (uploadSummary (operationsOf (req.files.getD [])).length)
          (commitMessageOf (operationsOf (req.files.getD []))))
        (resultsOf (req.files.getD [])) (req.files.getD []).length
        (operationsOf (req.files.getD [])).length
        [⟨"https://huggingface.co/api/repos/create", "Bearer " ++ req.token.getD "",
          Payload.createRepo (req.repo.getD "") false⟩] commit := by
  have hlen : ((operationsOf (req.files.getD [])).length == 0) = false := by
    simp [List.length_eq_zero, hops]
  simp [proxyUpload, hmp, hlen, hs]

theorem spaceUrl_ne_createUrl (s : String) :
    "https://huggingface.co/api/spaces/" ++ s ++ "/commit/main" ≠
      "https://huggingface.co/api/repos/create" := by
  intro h
  have hlen := congrArg String.length h
  rw [String.length_append, String.length_append] at hlen
  have l1 : ("https://huggingface.co/api/spaces/" : String).length = 34 := rfl
  have l2 : ("/commit/main" : String).length = 12 := rfl
  have l3 : ("https://huggingface.co/api/repos/create" : String).length = 39 := rfl
  omega

/-! ## Claims -/

/-- C1: the validator rejects a file with the oversize reason exactly when
its size strictly exceeds 104857600 bytes. An oversize file `f` gets a
`success = false` outcome with the oversize reason and no WriteOperation;
a file `g` at or under the limit with a valid name is accepted and yields
an operation; a file `e` at or under the limit (any name) is never given
the oversize reason; and an oversize file contributes nothing to the
operations batch while sibling files are processed unchanged. -/
theorem C1_fileTooLarge (f g e : UploadedFile) (fs1 fs2 : List UploadedFile)
    (hf : f.size > 104857600) (hg : g.size ≤ 104857600)
    (hgname : strTruthy g.originalname = true)
    (hgtrim : jsTrim (g.originalname.getD "") ≠ "")
    (he : e.size ≤ 104857600) :
    (processFile f).1.success = false ∧
    (processFile f).1.error = some "Arquivo muito grande (>100MB)" ∧
    (processFile f).2 = none ∧
    (processFile g).1.success = true ∧
    (processFile g).2.isSome = true ∧
    (processFile e).1.error ≠ some "Arquivo muito grande (>100MB)" ∧
    operationsOf (fs1 ++ f :: fs2) = operationsOf fs1 ++ operationsOf fs2 := by
  refine ⟨?_, ?_, ?_, ?_, ?_, ?_, ?_⟩
  · rw [processFile_oversize f hf]
  · rw [processFile_oversize f hf]
  · rw [processFile_oversize f hf]
  · rw [processFile_accepted g hg hgname hgtrim]
  · rw [processFile_accepted g hg hgname hgtrim]
    rfl
  · exact processFile_le_not_oversize e he
  · rw [operationsOf_append]
    congr 1
    show operationsOf (f :: fs2) = operationsOf fs2
    simp [operationsOf, List.filterMap_cons, processFile_oversize f hf]

/-- C1 witness: the oversize file (104857601 bytes), an in-limit sibling,
and a zero-size file, instantiated concretely. -/
theorem C1_fileTooLarge_witness :
    (processFile ⟨some "big.bin", [], 104857601⟩).1.success = false ∧
    (processFile ⟨some "big.bin", [], 104857601⟩).1.error =
      some "Arquivo muito grande (>100MB)" ∧
    (processFile ⟨some "big.bin", [], 104857601⟩).2 = none ∧
    (processFile ⟨some "a.txt", [104, 105], 2⟩).1.success = true ∧
    (processFile ⟨some "a.txt", [104, 105], 2⟩).2.isSome = true ∧
    (processFile ⟨none, [], 0⟩).1.error ≠ some "Arquivo muito grande (>100MB)" ∧
    operationsOf ([] ++ ⟨some "big.bin", [], 104857601⟩ :: [⟨some "a.txt", [104, 105], 2⟩]) =
      operationsOf [] ++ operationsOf [⟨some "a.txt", [104, 105], 2⟩] :=
  C1_fileTooLarge ⟨some "big.bin", [], 104857601⟩ ⟨some "a.txt", [104, 105], 2⟩
    ⟨none, [], 0⟩ [] [⟨some "a.txt", [104, 105], 2⟩]
    (by decide) (by decide) (by decide) (by decide) (by decide)

/-- C2 counterexample: a request in which `spaceId` is present but equal to
the empty string is handled in repository mode — the repository-create
provisioning call is issued and the commit goes to the repository
endpoint, refuting the claim for mere presence of the field. -/
theorem C2_counterexample :
    (⟨some "tok", some "alice", some "demo", some "",
        some [⟨some "a.txt", [104, 105], 2⟩]⟩ : Request).spaceId = some "" ∧
    (proxyUpload
        ⟨some "tok", some "alice", some "demo", some "", some [⟨some "a.txt", [104, 105], 2⟩]⟩
        (Except.ok ⟨200, ""⟩) (Except.ok ⟨200, "ok"⟩)).2.map OutboundCall.url =
      ["https://huggingface.co/api/repos/create",
       "https://huggingface.co/api/repos/alice/demo/commit/main"] := by decide

/-- C2 (amended: `spaceId` present and non-empty, since the discriminator
tests truthiness): the only outbound call is the commit to the space
endpoint with the `{files, summary}` payload shape, and the
repository-create provisioning endpoint is never called. -/
theorem C2_spaceCommit (req : Request) (prov commit : Except String HttpResponse)
    (s : String) (hs : req.spaceId = some s) (hne : s ≠ "")
    (hmp : missingParams req = false)
    (hops : operationsOf (req.files.getD []) ≠ []) :
    (proxyUpload req prov commit).2 =
      [⟨"https://huggingface.co/api/spaces/" ++ s ++ "/commit/main",
        "Bearer " ++ req.token.getD "",
        Payload.spaceCommit
          ((operationsOf (req.files.getD [])).map fun op => ⟨op.path, op.content, "base64"⟩)
          (uploadSummary (operationsOf (req.files.getD [])).length)⟩] ∧
    ∀ c ∈ (proxyUpload req prov commit).2,
      c.url ≠ "https://huggingface.co/api/repos/create" := by
  have hst : strTruthy req.spaceId = true := by simp [strTruthy, hs, hne]
  have hurl : commitUrlOf req = "https://huggingface.co/api/spaces/" ++ s ++ "/commit/main" := by
    rw [commitUrlOf, if_pos hst, hs]
    rfl
  have hcalls : (proxyUpload req prov commit).2 =
      [⟨"https://huggingface.co/api/spaces/" ++ s ++ "/commit/main",
        "Bearer " ++ req.token.getD "",
        Payload.spaceCommit
          ((operationsOf (req.files.getD [])).map fun op => ⟨op.path, op.content, "base64"⟩)
          (uploadSummary (operationsOf (req.files.getD [])).length)⟩] := by
    rw [proxyUpload_space_eq req prov commit hmp hst hops, dispatchCommit_snd, hurl]
    rfl
  refine ⟨hcalls, ?_⟩
  intro c hc
  rw [hcalls] at hc
  simp only [List.mem_singleton] at hc
  subst hc
  exact spaceUrl_ne_createUrl s

/-- C2 witness: a concrete non-empty `spaceId` request. -/
theorem C2_spaceCommit_witness :
    (proxyUpload
        ⟨some "tok", some "alice", some "demo", some "org/demo-space",
          some [⟨some "a.txt", [104, 105], 2⟩]⟩
        (Except.ok ⟨200, ""⟩) (Except.ok ⟨200, "ok"⟩)).2 =
      [⟨"https://huggingface.co/api/spaces/" ++ "org/demo-space" ++ "/commit/main",
        "Bearer " ++ "tok",
        Payload.spaceCommit
          ((operationsOf [⟨some "a.txt", [104, 105], 2⟩]).map
            fun op => ⟨op.path, op.content, "base64"⟩)
          (uploadSummary (operationsOf [⟨some "a.txt", [104, 105], 2⟩]).length)⟩] ∧
    ∀ c ∈ (proxyUpload
        ⟨some "tok", some "alice", some "demo", some "org/demo-space",
          some [⟨some "a.txt", [104, 105], 2⟩]⟩
        (Except.ok ⟨200, ""⟩) (Except.ok ⟨200, "ok"⟩)).2,
      c.url ≠ "https://huggingface.co/api/repos/create" :=
  C2_spaceCommit _ _ _ "org/demo-space" rfl (by decide) (by decide) (by decide)

/-- C3: with `spaceId` absent the provisioning call to `/api/repos/create`
is issued before the commit call to the repository endpoint with the
`{operations, commit_title, commit_message}` payload, and the handler's
entire behaviour is independent of the provisioning outcome — HTTP 200,
HTTP 409, every other status, and a transport failure are all uniformly
non-blocking, the commit being dispatched regardless. -/
theorem C3_provisioningSwallowed (req : Request)
    (prov prov2 commit : Except String HttpResponse)
    (hs : req.spaceId = none) (hmp : missingParams req = false)
    (hops : operationsOf (req.files.getD []) ≠ []) :
    (proxyUpload req prov commit).2 =
      [⟨"https://huggingface.co/api/repos/create", "Bearer " ++ req.token.getD "",
        Payload.createRepo (req.repo.getD "") false⟩,
       ⟨"https://huggingface.co/api/repos/" ++ req.username.getD "" ++ "/" ++
          req.repo.getD "" ++ "/commit/main", "Bearer " ++ req.token.getD "",
        Payload.repoCommit (operationsOf (req.files.getD []))
          (uploadSummary (operationsOf (req.files.getD [])).length)
          (commitMessageOf (operationsOf (req.files.getD [])))⟩] ∧
    proxyUpload req prov commit = proxyUpload req prov2 commit := by
  have hst : strTruthy req.spaceId = false := by simp [strTruthy, hs]
  have hurl : commitUrlOf req = "https://huggingface.co/api/repos/" ++
      req.username.getD "" ++ "/" ++ req.repo.getD "" ++ "/commit/main" := by
    simp [commitUrlOf, hst]
  constructor
  · rw [proxyUpload_repo_eq req prov commit hmp hst hops, dispatchCommit_snd, hurl]
    rfl
  · rw [proxyUpload_repo_eq req prov commit hmp hst hops,
      proxyUpload_repo_eq req prov2 commit hmp hst hops]

/-- C3 witness: instantiated with a provisioning result of HTTP 500 versus
a provisioning transport failure — the two runs coincide and the commit is
still dispatched after the create call. -/
theorem C3_provisioningSwallowed_witness :
    (proxyUpload ⟨some "tok", some "alice", some "demo", none,
        some [⟨some "a.txt", [104, 105], 2⟩]⟩
        (Except.ok ⟨500, "boom"⟩) (Except.ok ⟨200, "ok"⟩)).2 =
      [⟨"https://huggingface.co/api/repos/create", "Bearer " ++ "tok",
        Payload.createRepo "demo" false⟩,
       ⟨"https://huggingface.co/api/repos/" ++ "alice" ++ "/" ++ "demo" ++ "/commit/main",
        "Bearer " ++ "tok",
        Payload.repoCommit (operationsOf [⟨some "a.txt", [104, 105], 2⟩])
          (uploadSummary (operationsOf [⟨some "a.txt", [104, 105], 2⟩]).length)
          (commitMessageOf (operationsOf [⟨some "a.txt", [104, 105], 2⟩]))⟩] ∧
    proxyUpload ⟨some "tok", some "alice", some "demo", none,
        some [⟨some "a.txt", [104, 105], 2⟩]⟩
        (Except.ok ⟨500, "boom"⟩) (Except.ok ⟨200, "ok"⟩) =
      proxyUpload ⟨some "tok", some "alice", some "demo", none,
        some [⟨some "a.txt", [104, 105], 2⟩]⟩
        (Except.error "ECONNRESET") (Except.ok ⟨200, "ok"⟩) :=
  C3_provisioningSwallowed _ _ _ _ rfl (by decide) (by decide)

/-- C4: on a non-success remote commit status the caller receives exactly
the remote status with `success = false` and a message embedding the
remote status code and raw body; on a success-range remote status the
caller receives HTTP 200 with `success = true` and a message embedding
successCount over the total file count, successCount being the number of
FileOutcomes with the success flag set. -/
theorem C4_statusPassthrough (req : Request) (prov : Except String HttpResponse)
    (r1 r2 : HttpResponse) (hmp : missingParams req = false)
    (hops : operationsOf (req.files.getD []) ≠ [])
    (h1 : r1.ok = false) (h2 : r2.ok = true) :
    (proxyUpload req prov (.ok r1)).1 =
      ⟨r1.status,
       .commitFailure false
         ("Erro no commit (" ++ toString r1.status ++ "): " ++ r1.body)
         r1.status (resultsOf (req.files.getD [])) (targetOf req) (commitUrlOf req)
         (operationsOf (req.files.getD [])).length⟩ ∧
    (proxyUpload req prov (.ok r2)).1 =
      ⟨200,
       .commitSuccess true
         (toString (((resultsOf (req.files.getD [])).filter fun r => r.success).length) ++
           "/" ++ toString (req.files.getD []).length ++ " arquivos enviados com sucesso")
         (resultsOf (req.files.getD [])) r2.body (targetOf req) (commitUrlOf req)
         (operationsOf (req.files.getD [])).length⟩ := by
  cases hsp : strTruthy req.spaceId with
  | true =>
      constructor
      · rw [proxyUpload_space_eq req prov (.ok r1) hmp hsp hops]
        exact dispatchCommit_fst_ok_false _ _ _ _ _ _ _ _ _ h1
      · rw [proxyUpload_space_eq req prov (.ok r2) hmp hsp hops]
        exact dispatchCommit_fst_ok_true _ _ _ _ _ _ _ _ _ h2
  | false =>
      constructor
      · rw [proxyUpload_repo_eq req prov (.ok r1) hmp hsp hops]
        exact dispatchCommit_fst_ok_false _ _ _ _ _ _ _ _ _ h1
      · rw [proxyUpload_repo_eq req prov (.ok r2) hmp hsp hops]
        exact dispatchCommit_fst_ok_true _ _ _ _ _ _ _ _ _ h2

/-- C4 witness: remote 404 is mirrored, remote 200 yields HTTP 200 with the
1/1 message. -/
theorem C4_statusPassthrough_witness :
    (proxyUpload ⟨some "tok", some "alice", some "demo", none,
        some [⟨some "a.txt", [104, 105], 2⟩]⟩
        (Except.ok ⟨200, ""⟩) (.ok ⟨404, "nf"⟩)).1 =
      ⟨(404 : Nat),
       .commitFailure false
         ("Erro no commit (" ++ toString (404 : Nat) ++ "): " ++ "nf")
         404 (resultsOf [⟨some "a.txt", [104, 105], 2⟩])
         (targetOf ⟨some "tok", some "alice", some "demo", none,
           some [⟨some "a.txt", [104, 105], 2⟩]⟩)
         (commitUrlOf ⟨some "tok", some "alice", some "demo", none,
           some [⟨some "a.txt", [104, 105], 2⟩]⟩)
         (operationsOf [⟨some "a.txt", [104, 105], 2⟩]).length⟩ ∧
    (proxyUpload ⟨some "tok", some "alice", some "demo", none,
        some [⟨some "a.txt", [104, 105], 2⟩]⟩
        (Except.ok ⟨200, ""⟩) (.ok ⟨200, "committed"⟩)).1 =
      ⟨(200 : Nat),
       .commitSuccess true
         (toString (((resultsOf [⟨some "a.txt", [104, 105], 2⟩]).filter
             fun r => r.success).length) ++
           "/" ++ toString ([⟨some "a.txt", [104, 105], 2⟩] : List UploadedFile).length ++
           " arquivos enviados com sucesso")
         (resultsOf [⟨some "a.txt", [104, 105], 2⟩]) "committed"
         (targetOf ⟨some "tok", some "alice", some "demo", none,
           some [⟨some "a.txt", [104, 105], 2⟩]⟩)
         (commitUrlOf ⟨some "tok", some "alice", some "demo", none,
           some [⟨some "a.txt", [104, 105], 2⟩]⟩)
         (operationsOf [⟨some "a.txt", [104, 105], 2⟩]).length⟩ :=
  C4_statusPassthrough _ _ ⟨404, "nf"⟩ ⟨200, "committed"⟩
    (by decide) (by decide) (by decide) (by decide)

/-- C5: a request missing the token, username, repo, or file list, or with
an empty file list, is answered with HTTP 400 and the error message, and
no outbound HTTP call of any kind is made. -/
theorem C5_missingParameters (req : Request) (prov commit : Except String HttpResponse)
    (h : req.token = none ∨ req.username = none ∨ req.repo = none ∨
      req.files = none ∨ req.files = some []) :
    proxyUpload req prov commit =
      (⟨400, .missingParams "token, username, repo e files são obrigatórios"⟩, []) := by
  have hm := missingParams_of_absent req h
  simp [proxyUpload, hm]

/-- C5 witness: a request with no token. -/
theorem C5_missingParameters_witness :
    proxyUpload ⟨none, some "alice", some "demo", none,
        some [⟨some "a.txt", [104, 105], 2⟩]⟩
        (Except.ok ⟨200, ""⟩) (Except.ok ⟨200, "ok"⟩) =
      (⟨400, .missingParams "token, username, repo e files são obrigatórios"⟩, []) :=
  C5_missingParameters _ _ _ (Or.inl rfl)

/-- C6: when files were supplied but every file was rejected, the response
is `success = false` with HTTP 400, no outbound call is made, and the
response carries the non-empty list of rejected FileOutcomes — which is
what distinguishes this case from the missing-parameters 400. -/
theorem C6_noValidFiles (req : Request) (prov commit : Except String HttpResponse)
    (hmp : missingParams req = false)
    (hops : operationsOf (req.files.getD []) = []) :
    proxyUpload req prov commit =
      (⟨400, .noValidFiles false "Nenhum arquivo válido para upload"
        (resultsOf (req.files.getD []))⟩, []) ∧
    resultsOf (req.files.getD []) ≠ [] := by
  constructor
  · simp [proxyUpload, hmp, hops]
  · have hne := filesNonempty_of_params req hmp
    simp only [resultsOf, ne_eq, List.map_eq_nil]
    exact hne

/-- C6 witness: one file whose name is empty — rejected, 400, no calls,
non-empty outcome list. -/
theorem C6_noValidFiles_witness :
    proxyUpload ⟨some "tok", some "alice", some "demo", none, some [⟨some "", [], 0⟩]⟩
        (Except.ok ⟨200, ""⟩) (Except.ok ⟨200, "ok"⟩) =
      (⟨400, .noValidFiles false "Nenhum arquivo válido para upload"
        (resultsOf [⟨some "", [], 0⟩])⟩, []) ∧
    resultsOf [(⟨some "", [], 0⟩ : UploadedFile)] ≠ [] :=
  C6_noValidFiles _ _ _ (by decide) (by decide)

/-- C7 counterexample: a file whose name trims to the empty string but
whose size exceeds the limit is rejected with the oversize reason, not the
invalid-name reason — the size check runs first, so the claim does not
hold for every file with an invalid name. -/
theorem C7_counterexample :
    jsTrim ((⟨some " ", [], 104857601⟩ : UploadedFile).originalname.getD "") = "" ∧
    (processFile ⟨some " ", [], 104857601⟩).1.error ≠ some "Nome de arquivo inválido" ∧
    (processFile ⟨some " ", [], 104857601⟩).1.error =
      some "Arquivo muito grande (>100MB)" := by decide

/-- C7 (amended with the size precondition the code imposes, the size check
running before the name check): a file within the size limit whose name is
absent or trims to empty is rejected with the invalid-name reason
regardless of its content, and every accepted file's WriteOperation has
the trimmed file name as path, encoding "base64", and the base64 encoding
of the raw bytes as content. -/
theorem C7_nameValidation (f a : UploadedFile) (op : WriteOperation)
    (hf : f.size ≤ 104857600)
    (hn : f.originalname = none ∨ jsTrim (f.originalname.getD "") = "")
    (hop : (processFile a).2 = some op) :
    ((processFile f).1.success = false ∧
     (processFile f).1.error = some "Nome de arquivo inválido" ∧
     (processFile f).2 = none) ∧
    (op.path = jsTrim (a.originalname.getD "") ∧ op.encoding = "base64" ∧
     op.content = base64Encode a.buffer ∧ op.operation = "addOrUpdate") := by
  have hn2 : strTruthy f.originalname = false ∨ jsTrim (f.originalname.getD "") = "" := by
    rcases hn with h | h
    · exact Or.inl (by simp [strTruthy, h])
    · exact Or.inr h
  constructor
  · rw [processFile_invalidName f hf hn2]
    exact ⟨rfl, rfl, rfl⟩
  · by_cases hsize : a.size > 104857600
    · rw [processFile_oversize a hsize] at hop
      simp at hop
    · push_neg at hsize
      by_cases hname : strTruthy a.originalname = false ∨ jsTrim (a.originalname.getD "") = ""
      · rw [processFile_invalidName a hsize hname] at hop
        simp at hop
      · push_neg at hname
        obtain ⟨hn1, hn3⟩ := hname
        rw [processFile_accepted a hsize (by simpa using hn1) hn3] at hop
        simp only [Option.some.injEq] at hop
        subst hop
        exact ⟨rfl, rfl, rfl, rfl⟩

/-- C7 witness: a file named with a vertical tab and a space, both
whitespace to ECMA-262 trim, is rejected as invalid-name; an accepted
file whose name pads "x.bin" with spaces yields the operation with
path "x.bin" and base64 content. -/
theorem C7_nameValidation_witness :
    ((processFile ⟨some "\u000B ", [1, 2, 3], 3⟩).1.success = false ∧
     (processFile ⟨some "\u000B ", [1, 2, 3], 3⟩).1.error =
       some "Nome de arquivo inválido" ∧
     (processFile ⟨some "\u000B ", [1, 2, 3], 3⟩).2 = none) ∧
    (("x.bin" : String) = jsTrim ((⟨some " x.bin ", [0, 255], 2⟩ :
        UploadedFile).originalname.getD "") ∧
     ("base64" : String) = "base64" ∧
     ("AP8=" : String) = base64Encode [0, 255] ∧
     ("addOrUpdate" : String) = "addOrUpdate") :=
  C7_nameValidation ⟨some "\u000B ", [1, 2, 3], 3⟩ ⟨some " x.bin ", [0, 255], 2⟩
    ⟨"addOrUpdate", "x.bin", "AP8=", "base64"⟩ (by decide) (Or.inr (by decide)) (by decide)

/-- C8: decoding the base64 text produced by the operation encoder
reproduces the original byte sequence exactly, for every byte sequence. -/
theorem C8_base64RoundTrip (bs : List Nat) (h : ∀ b ∈ bs, b < 256) :
    base64Decode (base64Encode bs) = some bs :=
  base64DecodeChars_encodeChars bs h

/-- C8 witness: a sequence containing the smallest and largest byte values. -/
theorem C8_base64RoundTrip_witness :
    (∀ b ∈ [0, 1, 77, 128, 255], b < 256) ∧
    base64Decode (base64Encode [0, 1, 77, 128, 255]) = some [0, 1, 77, 128, 255] :=
  ⟨by decide, C8_base64RoundTrip [0, 1, 77, 128, 255] (by decide)⟩

/-- C9: the loop produces exactly one FileOutcome per input file in input
order (the results list is the elementwise image of the file list), and
the number of WriteOperations equals the number of FileOutcomes whose
success flag is set. -/
theorem C9_outcomeInvariants (req : Request) (files : List UploadedFile)
    (hf : req.files = some files) (hmp : missingParams req = false) :
    resultsOf files = files.map (fun f => (processFile f).1) ∧
    (resultsOf files).length = files.length ∧
    (operationsOf files).length =
      ((resultsOf files).filter fun r => r.success).length :=
  ⟨rfl, by simp [resultsOf], operationsOf_length files⟩

/-- C9 witness: a two-file batch, one accepted and one rejected. -/
theorem C9_outcomeInvariants_witness :
    resultsOf [⟨some "a.txt", [104, 105], 2⟩, ⟨none, [], 1⟩] =
      ([⟨some "a.txt", [104, 105], 2⟩, ⟨none, [], 1⟩] : List UploadedFile).map
        (fun f => (processFile f).1) ∧
    (resultsOf [⟨some "a.txt", [104, 105], 2⟩, ⟨none, [], 1⟩]).length =
      ([⟨some "a.txt", [104, 105], 2⟩, ⟨none, [], 1⟩] : List UploadedFile).length ∧
    (operationsOf [⟨some "a.txt", [104, 105], 2⟩, ⟨none, [], 1⟩]).length =
      ((resultsOf [⟨some "a.txt", [104, 105], 2⟩, ⟨none, [], 1⟩]).filter
        fun r => r.success).length :=
  C9_outcomeInvariants
    ⟨some "tok", some "alice", some "demo", none,
      some [⟨some "a.txt", [104, 105], 2⟩, ⟨none, [], 1⟩]⟩
    [⟨some "a.txt", [104, 105], 2⟩, ⟨none, [], 1⟩] rfl (by decide)

/-- C10: a request whose `spaceId` field is present but equal to the empty
string is handled in repository mode — provisioning is attempted, the
repository-commit endpoint and payload are used, and the response's target
field is "repository" — because the discriminator tests the truthiness of
`spaceId`, not the presence of the field. -/
theorem C10_emptySpaceId (req : Request) (prov commit : Except String HttpResponse)
    (hs : req.spaceId = some "") (hmp : missingParams req = false)
    (hops : operationsOf (req.files.getD []) ≠ []) :
    (proxyUpload req prov commit).2 =
      [⟨"https://huggingface.co/api/repos/create", "Bearer " ++ req.token.getD "",
        Payload.createRepo (req.repo.getD "") false⟩,
       ⟨"https://huggingface.co/api/repos/" ++ req.username.getD "" ++ "/" ++
          req.repo.getD "" ++ "/commit/main", "Bearer " ++ req.token.getD "",
        Payload.repoCommit (operationsOf (req.files.getD []))
          (uploadSummary (operationsOf (req.files.getD [])).length)
          (commitMessageOf (operationsOf (req.files.getD [])))⟩] ∧
    ((proxyUpload req prov commit).1.body).target? = some "repository" := by
  have hst : strTruthy req.spaceId = false := by simp [strTruthy, hs]
  have hurl : commitUrlOf req = "https://huggingface.co/api/repos/" ++
      req.username.getD "" ++ "/" ++ req.repo.getD "" ++ "/commit/main" := by
    rw [commitUrlOf, if_neg]
    simp [hst]
  have ht : targetOf req = "repository" := by
    rw [targetOf, if_neg]
    simp [hst]
  constructor
  · rw [proxyUpload_repo_eq req prov commit hmp hst hops, dispatchCommit_snd, hurl]
    rfl
  · rw [proxyUpload_repo_eq req prov commit hmp hst hops]
    cases commit with
    | error msg =>
        rw [dispatchCommit_fst_error]
        rw [ht]
        rfl
    | ok resp =>
        by_cases hok : resp.ok = true
        · rw [dispatchCommit_fst_ok_true _ _ _ _ _ _ _ _ _ hok, ht]
          rfl
        · rw [dispatchCommit_fst_ok_false _ _ _ _ _ _ _ _ _ (by simpa using hok), ht]
          rfl

/-- C10 witness: the concrete empty-`spaceId` request. -/
theorem C10_emptySpaceId_witness :
    (proxyUpload ⟨some "tok", some "alice", some "demo", some "",
        some [⟨some "a.txt", [104, 105], 2⟩]⟩
        (Except.ok ⟨200, ""⟩) (Except.ok ⟨200, "ok"⟩)).2 =
      [⟨"https://huggingface.co/api/repos/create", "Bearer " ++ "tok",
        Payload.createRepo "demo" false⟩,
       ⟨"https://huggingface.co/api/repos/" ++ "alice" ++ "/" ++ "demo" ++ "/commit/main",
        "Bearer " ++ "tok",
        Payload.repoCommit (operationsOf [⟨some "a.txt", [104, 105], 2⟩])
          (uploadSummary (operationsOf [⟨some "a.txt", [104, 105], 2⟩]).length)
          (commitMessageOf (operationsOf [⟨some "a.txt", [104, 105], 2⟩]))⟩] ∧
    ((proxyUpload ⟨some "tok", some "alice", some "demo", some "",
        some [⟨some "a.txt", [104, 105], 2⟩]⟩
        (Except.ok ⟨200, ""⟩) (Except.ok ⟨200, "ok"⟩)).1.body).target? =
      some "repository" :=
  C10_emptySpaceId _ _ _ rfl (by decide) (by decide)

end SiteAiProxy
